import Mathlib

/-!
# Verification of the EXIF metadata viewer page

Shallow embedding of `src/app/page.tsx`: the `handleFileChange` event
handler (EXIF parse, metadata filtering, GPS acceptance) and the
`useEffect` map lifecycle (creation of an OpenLayers map when GPS data
is present, teardown on change/unmount), together with proofs of the
specified properties.

Modelling conventions:
* JavaScript numbers are modelled as rationals (`ℚ`); the only numeric
  operation the page performs on them is the truthiness test (`x` is
  falsy iff it is `0` or absent).
* The heterogeneous tag values (`Record<string, any>`) are a tagged
  variant `MetaValue`; metadata objects are association lists
  `List (String × MetaValue)` (JS objects have distinct keys and
  preserve insertion order).
* The external parsing capabilities (`exifr.parse`, `exifr.gps`) are
  modelled by their results, carried by the selected file: `exifr.parse`
  either throws (caught by the handler's `try`/`catch`) or returns a
  possibly-null tag mapping; `exifr.gps` returns a possibly-undefined
  record whose `latitude`/`longitude` fields are possibly-undefined
  numbers.
* The Web-Mercator projection `fromLonLat` of `ol/proj` is external
  library code; the embedding abstracts it as a function parameter
  `proj : ℚ × ℚ → ℚ × ℚ`.
* React's rendering/effect semantics for this page are embedded as a
  transition system: a committed state change whose `gpsData` dependency
  changed (by `Object.is`; the success branch always stores a fresh
  object, so any `setGpsData(some _)` changes it, while `null` equals
  `null`) re-runs the effect, running the previous cleanup first; the
  map `<div ref={mapRef}>` is rendered exactly when `gpsData` is
  non-null, and rendering precedes the effect, so `mapRef.current` is
  attached exactly when `gpsData` is non-null at effect time.
-/

namespace ExifViewer

/-- A tag value of the metadata mapping (`Record<string, any>` in the
source): a scalar number, a scalar string, or a nested structured
value. The page never inspects values; it only passes them through. -/
inductive MetaValue where
  | num (q : ℚ)
  | str (s : String)
  | obj (fields : List (String × MetaValue))

/-- A metadata mapping: association list from tag name to value. -/
abbrev Metadata := List (String × MetaValue)

/-- The filtering step of `handleFileChange`:
`Object.entries(allMetaData || {}).filter(([key]) => key !== 'MakerNote' && key !== 'thumbnail')`
re-assembled with `Object.fromEntries`. -/
def filterMetadata (m : Metadata) : Metadata :=
  m.filter (fun kv => kv.1 != "MakerNote" && kv.1 != "thumbnail")

/-- The GPS state value stored by `setGpsData` on success:
`{ latitude, longitude }`. -/
structure Gps where
  latitude : ℚ
  longitude : ℚ
deriving DecidableEq

/-- Result of the dedicated `exifr.gps(file)` call when it returns an
object: its `latitude` and `longitude` fields, each possibly
`undefined`. -/
structure GpsResult where
  latitude : Option ℚ
  longitude : Option ℚ
deriving DecidableEq

/-- The acceptance test and state value of the source:
`if (gpsMetaData && gpsMetaData.latitude && gpsMetaData.longitude)`
then `setGpsData({latitude, longitude})` else `setGpsData(null)`.
A possibly-undefined number is truthy iff it is present and nonzero. -/
def acceptedGps : Option GpsResult → Option Gps
  | none => none
  | some r =>
    match r.latitude, r.longitude with
    | some la, some lo => if la ≠ 0 ∧ lo ≠ 0 then some ⟨la, lo⟩ else none
    | _, _ => none

/-- Combined outcome of the two awaited parsing calls inside the `try`
block: either one of them throws (`failure`, caught by the handler), or
both return (`exifr.parse` a possibly-null mapping, `exifr.gps` a
possibly-undefined record). -/
inductive ExtractOutcome where
  | failure
  | success (allMetaData : Option Metadata) (gpsMetaData : Option GpsResult)

/-- A selected file, abstracted by what the external capabilities
produce from it: its object URL (`URL.createObjectURL(file)`) and the
outcome of the parsing calls. -/
structure FileData where
  url : String
  outcome : ExtractOutcome

/-- The three `useState` cells of the component. -/
structure PageState where
  metadata : Metadata
  imageSrc : Option String
  gpsData : Option Gps

/-- The single-entry error indicator stored on parse failure:
`setMetadata({ error: 'Failed to read EXIF metadata' })`. -/
def errorMetadata : Metadata :=
  [("error", MetaValue.str "Failed to read EXIF metadata")]

/-- The `handleFileChange` handler as a state transformer. The event
carries `e.target.files?.[0]` as an `Option FileData`; with no file the
handler returns immediately (`if (!file) return`). Otherwise it sets the
preview URL, then either the caught-failure branch or the success branch
runs. The handler never throws: failures of the parsing calls are caught
and converted into state. -/
def handleFileChange (s : PageState) : Option FileData → PageState
  | none => s
  | some file =>
    let s1 : PageState := { s with imageSrc := some file.url }
    match file.outcome with
    | ExtractOutcome.failure =>
        { s1 with metadata := errorMetadata, gpsData := none }
    | ExtractOutcome.success allMetaData gpsMetaData =>
        { s1 with
          metadata := filterMetadata (allMetaData.getD [])
          gpsData := acceptedGps gpsMetaData }

/-- The marker feature of the vector layer: a `Feature` with a `Point`
geometry at the projected coordinate, styled with an `Icon` whose
`anchor` is `[0.5, 1]` and whose `src` is `/marker-icon.png`. -/
structure MarkerSpec where
  point : ℚ × ℚ
  anchor : ℚ × ℚ
  iconSrc : String
deriving DecidableEq

/-- A layer of the map: the base `TileLayer` (with its source name) or
the `VectorLayer` with its list of marker features. -/
inductive Layer where
  | tile (source : String)
  | vector (features : List MarkerSpec)
deriving DecidableEq

/-- The live OpenLayers `Map` value: its display-target binding
(`some ()` while bound to `mapRef.current`, `none` after
`setTarget(undefined)`), its layer list, and its `View` (center in
projected coordinates, zoom). -/
structure MapResource where
  target : Option Unit
  layers : List Layer
  center : ℚ × ℚ
  zoom : ℕ
deriving DecidableEq

/-- The map built by the effect body for GPS data `g`, with `proj`
standing for `fromLonLat`: marker at `proj (longitude, latitude)`,
icon anchored at `[0.5, 1]`, OSM tile layer, view centered on the same
projected point at zoom 13, bound to the display target. -/
def mkMap (proj : ℚ × ℚ → ℚ × ℚ) (g : Gps) : MapResource :=
  let p := proj (g.longitude, g.latitude)
  { target := some ()
    layers := [Layer.tile "OSM",
               Layer.vector [{ point := p, anchor := (1/2, 1), iconSrc := "/marker-icon.png" }]]
    center := p
    zoom := 13 }

/-- `setTarget(undefined)` on a live map, performed by the effect
cleanup before the reference is dropped. -/
def unbind (m : MapResource) : MapResource := { m with target := none }

/-- Primitive map-lifecycle actions observable in a run: tearing down a
map (recorded after unbinding) and creating a new one. -/
inductive MapAction where
  | teardown (m : MapResource)
  | create (m : MapResource)
deriving DecidableEq

/-- The whole component state: the `useState` cells, the
`mapInstance.current` ref, and whether the component is still mounted. -/
structure SysState where
  page : PageState
  mapInstance : Option MapResource
  mounted : Bool

/-- External events driving the component: a change event on the file
input (possibly carrying no file), or removal of the component. -/
inductive PageEvent where
  | select (file? : Option FileData)
  | unmount

/-- The cleanup registered by the previous effect run, as run by React
before the next effect or on unmount: if a map instance is live, unbind
it from its target and drop the reference. -/
def cleanupActs (inst : Option MapResource) : List MapAction :=
  match inst with
  | some m => [MapAction.teardown (unbind m)]
  | none => []

/-- The effect re-run on a changed `gpsData` dependency: previous
cleanup first, then the effect body, which creates a map exactly when
`gpsData` is non-null (the `mapRef.current` guard is satisfied exactly
then, since the map `<div>` is rendered iff `gpsData` is non-null and
rendering precedes the effect). Returns the new `mapInstance.current`
and the actions performed, cleanup before creation. -/
def effectRun (proj : ℚ × ℚ → ℚ × ℚ) (gps : Option Gps)
    (inst : Option MapResource) : Option MapResource × List MapAction :=
  match gps with
  | some g => (some (mkMap proj g), cleanupActs inst ++ [MapAction.create (mkMap proj g)])
  | none => (none, cleanupActs inst)

/-- One reactive step of the component: an unmounted component ignores
events; `unmount` runs the pending cleanup; a selection runs
`handleFileChange` and, when the committed `gpsData` dependency changed
(always when the new value is a fresh object, i.e. non-null; otherwise
iff the old value was non-null), re-runs the effect. -/
def step (proj : ℚ × ℚ → ℚ × ℚ) (s : SysState) (e : PageEvent) :
    SysState × List MapAction :=
  if s.mounted then
    match e with
    | PageEvent.unmount =>
        ({ s with mapInstance := none, mounted := false }, cleanupActs s.mapInstance)
    | PageEvent.select none => (s, [])
    | PageEvent.select (some file) =>
        let p := handleFileChange s.page (some file)
        if p.gpsData.isSome || s.page.gpsData.isSome then
          let r := effectRun proj p.gpsData s.mapInstance
          ({ s with page := p, mapInstance := r.1 }, r.2)
        else
          ({ s with page := p }, [])
  else (s, [])

/-- A run of the component over a list of events, accumulating the
map-lifecycle actions in order. -/
def run (proj : ℚ × ℚ → ℚ × ℚ) (s : SysState) :
    List PageEvent → SysState × List MapAction
  | [] => (s, [])
  | e :: es =>
    let r1 := step proj s e
    let r2 := run proj r1.1 es
    (r2.1, r1.2 ++ r2.2)

/-- The freshly mounted page: empty metadata, no preview, no GPS data,
no map instance. -/
def initState : SysState :=
  { page := { metadata := [], imageSrc := none, gpsData := none }
    mapInstance := none
    mounted := true }

/-- A state is reachable when some event sequence leads to it from the
freshly mounted page. -/
def Reachable (proj : ℚ × ℚ → ℚ × ℚ) (s : SysState) : Prop :=
  ∃ es, (run proj initState es).1 = s

/-- Contribution of one action to the number of live map instances. -/
def actDelta : MapAction → ℤ
  | MapAction.teardown _ => -1
  | MapAction.create _ => 1

/-- Number of live map instances after a list of actions, starting
from `c` live instances. -/
def endCount (c : ℤ) (as : List MapAction) : ℤ :=
  c + (as.map actDelta).sum

/-- Starting from `c` live map instances, the action list never tears
down a non-existent map and never has two maps live at once: after
every prefix the live count stays within `[0, 1]`. -/
def countsOkB : ℤ → List MapAction → Bool
  | _, [] => true
  | c, a :: as =>
    decide (0 ≤ c + actDelta a) && decide (c + actDelta a ≤ 1)
      && countsOkB (c + actDelta a) as

/-- Live map count contributed by a `mapInstance` cell. -/
def mapCount : Option MapResource → ℤ
  | none => 0
  | some _ => 1

/-- The GPS value a selection event settles to, if the event carries a
file whose extraction succeeds with accepted GPS data. -/
def eventGps : PageEvent → Option Gps
  | PageEvent.select (some f) =>
    match f.outcome with
    | ExtractOutcome.success _ gpsMetaData => acceptedGps gpsMetaData
    | ExtractOutcome.failure => none
  | _ => none

/-- The single-instance invariant tying the map ref to the GPS state:
while mounted, `mapInstance.current` holds exactly the map built for
the current `gpsData` (or nothing), and after unmount it is cleared. -/
def Inv (proj : ℚ × ℚ → ℚ × ℚ) (s : SysState) : Prop :=
  s.mapInstance = if s.mounted then s.page.gpsData.map (mkMap proj) else none

/-- The last GPS coordinate settled by a sequence of selections, with a
fallback for the empty sequence. -/
def lastYielded : List Gps → Option Gps → Option Gps
  | [], dflt => dflt
  | g :: gs, _ => lastYielded gs (some g)

/-- Whether a map-lifecycle action is a creation. -/
def isCreate : MapAction → Bool
  | MapAction.create _ => true
  | MapAction.teardown _ => false

/-- A sample selection event settling GPS coordinate `(1, 2)`, used by
concrete instantiations of the lifecycle theorems. -/
def sampleSelectA : PageEvent :=
  PageEvent.select (some ⟨"a", ExtractOutcome.success none
    (some ⟨some 1, some 2⟩)⟩)

/-- A sample selection event settling GPS coordinate `(3, 4)`, used by
concrete instantiations of the lifecycle theorems. -/
def sampleSelectB : PageEvent :=
  PageEvent.select (some ⟨"b", ExtractOutcome.success none
    (some ⟨some 3, some 4⟩)⟩)

/-! ### Invariant lemmas for the map lifecycle -/

theorem inv_initState (proj : ℚ × ℚ → ℚ × ℚ) : Inv proj initState := rfl

theorem countsOkB_cleanup (inst : Option MapResource) :
    countsOkB (mapCount inst) (cleanupActs inst) = true := by
  cases inst <;> simp [cleanupActs, countsOkB, actDelta, mapCount]

theorem endCount_cleanup (inst : Option MapResource) :
    endCount (mapCount inst) (cleanupActs inst) = 0 := by
  cases inst <;> simp [cleanupActs, endCount, actDelta, mapCount]

theorem countsOkB_effectRun (proj : ℚ × ℚ → ℚ × ℚ) (gps : Option Gps)
    (inst : Option MapResource) :
    countsOkB (mapCount inst) (effectRun proj gps inst).2 = true := by
  cases gps <;> cases inst <;>
    simp [effectRun, cleanupActs, countsOkB, actDelta, mapCount]

theorem endCount_effectRun (proj : ℚ × ℚ → ℚ × ℚ) (gps : Option Gps)
    (inst : Option MapResource) :
    endCount (mapCount inst) (effectRun proj gps inst).2
      = mapCount (effectRun proj gps inst).1 := by
  cases gps <;> cases inst <;>
    simp [effectRun, cleanupActs, endCount, actDelta, mapCount]

theorem endCount_append (c : ℤ) (as bs : List MapAction) :
    endCount c (as ++ bs) = endCount (endCount c as) bs := by
  simp [endCount]
  ring

theorem countsOkB_append (c : ℤ) (as bs : List MapAction) :
    countsOkB c (as ++ bs) = (countsOkB c as && countsOkB (endCount c as) bs) := by
  induction as generalizing c with
  | nil => simp [countsOkB, endCount]
  | cons a as ih =>
    have h : endCount c (a :: as) = endCount (c + actDelta a) as := by
      simp [endCount]
      ring
    simp only [List.cons_append, countsOkB, List.append_eq, ih, h, Bool.and_assoc]

theorem step_inv (proj : ℚ × ℚ → ℚ × ℚ) (s : SysState) (e : PageEvent)
    (h : Inv proj s) : Inv proj (step proj s e).1 := by
  unfold Inv at h ⊢
  by_cases hm : s.mounted = true
  · cases e with
    | unmount => simp [step, hm]
    | select file? =>
      cases file? with
      | none => simpa [step, hm] using h
      | some file =>
        cases hp : (handleFileChange s.page (some file)).gpsData with
        | some g => simp [step, hm, hp, effectRun]
        | none =>
          cases hold : s.page.gpsData with
          | some g0 => simp [step, hm, hp, hold, effectRun]
          | none =>
            simp only [step, hm, if_true, hp, hold, Option.isSome_none,
              Bool.or_self, Bool.false_eq_true, if_false]
            simpa [hm, hold] using h
  · have hm' : s.mounted = false := by simpa using hm
    simpa [step, hm'] using h

theorem step_counts (proj : ℚ × ℚ → ℚ × ℚ) (s : SysState) (e : PageEvent) :
    countsOkB (mapCount s.mapInstance) (step proj s e).2 = true ∧
    endCount (mapCount s.mapInstance) (step proj s e).2
      = mapCount (step proj s e).1.mapInstance := by
  by_cases hm : s.mounted = true
  · cases e with
    | unmount =>
      refine ⟨?_, ?_⟩
      · simpa [step, hm] using countsOkB_cleanup s.mapInstance
      · simpa [step, hm, mapCount] using endCount_cleanup s.mapInstance
    | select file? =>
      cases file? with
      | none => simp [step, hm, countsOkB, endCount]
      | some file =>
        cases hp : (handleFileChange s.page (some file)).gpsData with
        | some g =>
          refine ⟨?_, ?_⟩
          · simpa [step, hm, hp] using countsOkB_effectRun proj (some g) s.mapInstance
          · simpa [step, hm, hp] using endCount_effectRun proj (some g) s.mapInstance
        | none =>
          cases hold : s.page.gpsData with
          | some g0 =>
            refine ⟨?_, ?_⟩
            · simpa [step, hm, hp, hold] using
                countsOkB_effectRun proj none s.mapInstance
            · simpa [step, hm, hp, hold] using
                endCount_effectRun proj none s.mapInstance
          | none => simp [step, hm, hp, hold, countsOkB, endCount]
  · have hm' : s.mounted = false := by simpa using hm
    simp [step, hm', countsOkB, endCount]

theorem run_inv_counts (proj : ℚ × ℚ → ℚ × ℚ) (es : List PageEvent) :
    ∀ s : SysState, Inv proj s →
      Inv proj (run proj s es).1 ∧
      countsOkB (mapCount s.mapInstance) (run proj s es).2 = true ∧
      endCount (mapCount s.mapInstance) (run proj s es).2
        = mapCount (run proj s es).1.mapInstance := by
  induction es with
  | nil => exact fun s h => ⟨h, rfl, by simp [run, endCount]⟩
  | cons e es ih =>
    intro s h
    have h1 := step_inv proj s e h
    have h2 := step_counts proj s e
    have h3 := ih (step proj s e).1 h1
    have hrun : run proj s (e :: es)
        = ((run proj (step proj s e).1 es).1,
           (step proj s e).2 ++ (run proj (step proj s e).1 es).2) := rfl
    refine ⟨by rw [hrun]; exact h3.1, ?_, ?_⟩
    · rw [hrun]
      simp only [countsOkB_append, h2.1, h2.2, h3.2.1, Bool.true_and]
    · rw [hrun]
      simp only [endCount_append, h2.2, h3.2.2]

theorem reachable_inv (proj : ℚ × ℚ → ℚ × ℚ) (s : SysState)
    (h : Reachable proj s) : Inv proj s := by
  obtain ⟨es, hes⟩ := h
  have := (run_inv_counts proj es initState (inv_initState proj)).1
  rwa [hes] at this

theorem step_gps (proj : ℚ × ℚ → ℚ × ℚ) (s : SysState) (e : PageEvent)
    (g : Gps) (hm : s.mounted = true) (hg : eventGps e = some g) :
    (step proj s e).1.page.gpsData = some g ∧ (step proj s e).1.mounted = true := by
  cases e with
  | unmount => simp [eventGps] at hg
  | select file? =>
    cases file? with
    | none => simp [eventGps] at hg
    | some file =>
      obtain ⟨u, oc⟩ := file
      cases oc with
      | failure => simp [eventGps] at hg
      | success allMetaData gpsMetaData =>
        have hacc : acceptedGps gpsMetaData = some g := by
          simpa [eventGps] using hg
        have hp : (handleFileChange s.page (some ⟨u, ExtractOutcome.success allMetaData gpsMetaData⟩)).gpsData = some g := by
          simp [handleFileChange, hacc]
        simp [step, hm, hp, effectRun]

theorem run_gps (proj : ℚ × ℚ → ℚ × ℚ) (es : List PageEvent) :
    ∀ (gs : List Gps) (s : SysState), s.mounted = true →
      es.map eventGps = gs.map some →
      (run proj s es).1.mounted = true ∧
      (run proj s es).1.page.gpsData = lastYielded gs s.page.gpsData := by
  induction es with
  | nil =>
    intro gs s hm hmap
    cases gs with
    | nil => exact ⟨hm, rfl⟩
    | cons g gs => simp at hmap
  | cons e es ih =>
    intro gs s hm hmap
    cases gs with
    | nil => simp at hmap
    | cons g gs =>
      simp only [List.map_cons, List.cons.injEq] at hmap
      have hstep := step_gps proj s e g hm hmap.1
      have hrec := ih gs (step proj s e).1 hstep.2 hmap.2
      have hrun : run proj s (e :: es)
          = ((run proj (step proj s e).1 es).1,
             (step proj s e).2 ++ (run proj (step proj s e).1 es).2) := rfl
      rw [hrun]
      refine ⟨hrec.1, ?_⟩
      rw [hrec.2, hstep.1]
      rfl

theorem lastYielded_getLast? (gs : List Gps) :
    ∀ dflt : Option Gps,
      lastYielded gs dflt = match gs.getLast? with
        | some g => some g
        | none => dflt := by
  induction gs with
  | nil => intro dflt; rfl
  | cons g gs ih =>
    intro dflt
    cases gs with
    | nil => simp [lastYielded, ih]
    | cons g2 gs2 =>
      rw [show lastYielded (g :: g2 :: gs2) dflt = lastYielded (g2 :: gs2) (some g) from rfl,
          ih (some g), List.getLast?_cons_cons]
      cases hgl : (g2 :: gs2).getLast? with
      | some g3 => rfl
      | none => exact absurd (List.getLast?_eq_none_iff.mp hgl) (by simp)

/-! ### Claim theorems -/

/-- C2: the Metadata Filter is a pure, synchronous, total function
(`filterMetadata`, a total Lean function) from raw metadata to filtered
metadata: no entry keyed `MakerNote` or `thumbnail` survives it, and
every entry with any other key passes through with its value (scalar or
nested) unchanged. -/
theorem metadata_filter_exact (m : Metadata) (k : String) (v w : MetaValue)
    (h1 : k ≠ "MakerNote") (h2 : k ≠ "thumbnail") :
    (("MakerNote", w) ∉ filterMetadata m) ∧
    (("thumbnail", w) ∉ filterMetadata m) ∧
    ((k, v) ∈ filterMetadata m ↔ (k, v) ∈ m) := by
  refine ⟨?_, ?_, ?_⟩
  · simp [filterMetadata, List.mem_filter]
  · simp [filterMetadata, List.mem_filter]
  · simp [filterMetadata, List.mem_filter, h1, h2]

theorem metadata_filter_exact_witness :
    (("MakerNote", MetaValue.num 7) ∉ filterMetadata
      [("Make", MetaValue.str "A"), ("MakerNote", MetaValue.num 7),
       ("thumbnail", MetaValue.num 9)]) ∧
    (("thumbnail", MetaValue.num 7) ∉ filterMetadata
      [("Make", MetaValue.str "A"), ("MakerNote", MetaValue.num 7),
       ("thumbnail", MetaValue.num 9)]) ∧
    (("Make", MetaValue.str "A") ∈ filterMetadata
        [("Make", MetaValue.str "A"), ("MakerNote", MetaValue.num 7),
         ("thumbnail", MetaValue.num 9)] ↔
      ("Make", MetaValue.str "A") ∈
        ([("Make", MetaValue.str "A"), ("MakerNote", MetaValue.num 7),
          ("thumbnail", MetaValue.num 9)] : Metadata)) :=
  metadata_filter_exact
    [("Make", MetaValue.str "A"), ("MakerNote", MetaValue.num 7),
     ("thumbnail", MetaValue.num 9)]
    "Make" (MetaValue.str "A") (MetaValue.num 7) (by decide) (by decide)

/-- C10: the Metadata Filter is idempotent: filtering its own output
changes nothing, since the dropped keys are already absent. -/
theorem metadata_filter_idempotent (m : Metadata) :
    filterMetadata (filterMetadata m) = filterMetadata m := by
  simp [filterMetadata, List.filter_filter]

/-- C4: the GPS state set by the success branch depends only on the
dedicated `exifr.gps` result (never on the full tag set), and it is
present exactly when both `latitude` and `longitude` are present and
truthy; a missing or zero coordinate yields the absent GPS state. -/
theorem gps_truthiness_policy (s : PageState) (u : String)
    (allMetaData : Option Metadata) (gpsMetaData : Option GpsResult)
    (la lo : ℚ) :
    (handleFileChange s
        (some ⟨u, ExtractOutcome.success allMetaData gpsMetaData⟩)).gpsData
      = acceptedGps gpsMetaData ∧
    (acceptedGps gpsMetaData = some ⟨la, lo⟩ ↔
      gpsMetaData = some ⟨some la, some lo⟩ ∧ la ≠ 0 ∧ lo ≠ 0) := by
  refine ⟨rfl, ?_⟩
  cases gpsMetaData with
  | none => simp [acceptedGps]
  | some r =>
    obtain ⟨rla, rlo⟩ := r
    cases rla with
    | none => simp [acceptedGps]
    | some a =>
      cases rlo with
      | none => simp [acceptedGps]
      | some b =>
        by_cases hc : a ≠ 0 ∧ b ≠ 0
        · simp only [acceptedGps, if_pos hc, Option.some.injEq,
            Gps.mk.injEq, GpsResult.mk.injEq]
          constructor
          · rintro ⟨rfl, rfl⟩
            exact ⟨⟨rfl, rfl⟩, hc⟩
          · rintro ⟨⟨rfl, rfl⟩, _⟩
            exact ⟨rfl, rfl⟩
        · simp only [acceptedGps, if_neg hc, Option.some.injEq,
            Gps.mk.injEq, GpsResult.mk.injEq]
          constructor
          · intro h
            exact absurd h (by simp)
          · rintro ⟨⟨rfl, rfl⟩, hla, hlo⟩
            exact absurd ⟨hla, hlo⟩ hc

/-- C7: a change event carrying no file is a complete no-op: the handler
returns the state unchanged, and the component performs no map
lifecycle action (preview, metadata and GPS state all unchanged). -/
theorem no_file_noop (proj : ℚ × ℚ → ℚ × ℚ) (s : SysState) (p : PageState) :
    step proj s (PageEvent.select none) = (s, []) ∧
    handleFileChange p none = p := by
  refine ⟨?_, rfl⟩
  by_cases hm : s.mounted = true
  · simp [step, hm]
  · have hm' : s.mounted = false := by simpa using hm
    simp [step, hm']

/-- C8: on a parse failure the preview reference is still the display
URL derived from the selected file (set before the parse), and the
failure branch changes only the metadata and GPS state relative to the
post-preview state. -/
theorem preview_independent_of_parse (s : PageState) (u : String) :
    handleFileChange s (some ⟨u, ExtractOutcome.failure⟩)
      = { s with imageSrc := some u, metadata := errorMetadata,
                 gpsData := none } ∧
    (handleFileChange s (some ⟨u, ExtractOutcome.failure⟩)).imageSrc
      = ({ s with imageSrc := some u } : PageState).imageSrc :=
  ⟨rfl, rfl⟩

/-- C9: a successful parse returning a null tag mapping (a file with no
EXIF data, for which the dedicated GPS call also reports nothing) does
not fault: the filter is applied to the empty mapping, the displayed
metadata is empty (in particular it is not the error indicator), and
the GPS state is absent. -/
theorem null_parse_result_safe (s : PageState) (u : String) :
    (handleFileChange s
        (some ⟨u, ExtractOutcome.success none none⟩)).metadata
      = filterMetadata [] ∧
    (handleFileChange s
        (some ⟨u, ExtractOutcome.success none none⟩)).metadata = [] ∧
    (handleFileChange s
        (some ⟨u, ExtractOutcome.success none none⟩)).metadata
      ≠ errorMetadata ∧
    (handleFileChange s
        (some ⟨u, ExtractOutcome.success none none⟩)).gpsData = none := by
  refine ⟨rfl, rfl, ?_, rfl⟩
  simp [handleFileChange, filterMetadata, errorMetadata]

/-- C3: a parse failure is converted into display state, never
propagated: the metadata becomes the single-entry error indicator, the
GPS state becomes absent, and re-selecting the same failing file is
idempotent — the second identical failed selection leaves the whole
component state unchanged and performs no map lifecycle action. -/
theorem parse_failure_handling (proj : ℚ × ℚ → ℚ × ℚ) (s : SysState)
    (u : String) (hm : s.mounted = true) :
    (step proj s (PageEvent.select
        (some ⟨u, ExtractOutcome.failure⟩))).1.page.metadata
      = errorMetadata ∧
    (step proj s (PageEvent.select
        (some ⟨u, ExtractOutcome.failure⟩))).1.page.gpsData = none ∧
    step proj
        (step proj s (PageEvent.select (some ⟨u, ExtractOutcome.failure⟩))).1
        (PageEvent.select (some ⟨u, ExtractOutcome.failure⟩))
      = ((step proj s (PageEvent.select
            (some ⟨u, ExtractOutcome.failure⟩))).1, []) := by
  have hp : (handleFileChange s.page
      (some ⟨u, ExtractOutcome.failure⟩)).gpsData = none := rfl
  cases hold : s.page.gpsData with
  | some g0 =>
    refine ⟨?_, ?_, ?_⟩ <;>
      simp [step, hm, hp, hold, effectRun, handleFileChange, errorMetadata]
  | none =>
    refine ⟨?_, ?_, ?_⟩ <;>
      simp [step, hm, hp, hold, effectRun, handleFileChange, errorMetadata]

/-- C1: in every reachable state a live map instance exists iff the
page is still mounted and the GPS state is non-absent (so, for every
reachable state of the live page, map iff GPS); along any run from the
fresh page the teardown/create trace keeps the number of live map
instances within `[0, 1]` at every instant; and after any nonempty
sequence of selections each settling a distinct valid GPS coordinate,
exactly one map instance is live, the one built for the last
coordinate's projected center. -/
theorem map_exists_iff_gps (proj : ℚ × ℚ → ℚ × ℚ)
    (es es2 : List PageEvent) (gs : List Gps) (glast : Gps)
    (hne : gs ≠ []) (hdist : gs.Pairwise (fun g1 g2 => g1 ≠ g2))
    (hmap : es2.map eventGps = gs.map some)
    (hlast : gs.getLast? = some glast) :
    (run proj initState es).1.mapInstance.isSome
        = ((run proj initState es).1.mounted
            && (run proj initState es).1.page.gpsData.isSome) ∧
    countsOkB 0 (run proj initState es).2 = true ∧
    (run proj initState es2).1.mapInstance = some (mkMap proj glast) ∧
    endCount 0 (run proj initState es2).2 = 1 ∧
    countsOkB 0 (run proj initState es2).2 = true := by
  have h1 := run_inv_counts proj es initState (inv_initState proj)
  have h2 := run_inv_counts proj es2 initState (inv_initState proj)
  have hg := run_gps proj es2 gs initState rfl hmap
  have hfin : (run proj initState es2).1.page.gpsData = some glast := by
    rw [hg.2, lastYielded_getLast?, hlast]
  have h3 : (run proj initState es2).1.mapInstance = some (mkMap proj glast) := by
    have hI := h2.1
    unfold Inv at hI
    rw [hI, hg.1, hfin]
    simp
  refine ⟨?_, h1.2.1, h3, ?_, h2.2.1⟩
  · have hI := h1.1
    unfold Inv at hI
    rw [hI]
    cases hmt : (run proj initState es).1.mounted <;>
      cases hgd : (run proj initState es).1.page.gpsData <;> simp
  · have h4 := h2.2.2
    rw [h3] at h4
    simpa [initState, mapCount, endCount] using h4

theorem map_exists_iff_gps_witness :
    (run id initState [sampleSelectA, sampleSelectB]).1.mapInstance.isSome
        = ((run id initState [sampleSelectA, sampleSelectB]).1.mounted
            && (run id initState
                  [sampleSelectA, sampleSelectB]).1.page.gpsData.isSome) ∧
    countsOkB 0 (run id initState [sampleSelectA, sampleSelectB]).2 = true ∧
    (run id initState [sampleSelectA, sampleSelectB]).1.mapInstance
      = some (mkMap id ⟨3, 4⟩) ∧
    endCount 0 (run id initState [sampleSelectA, sampleSelectB]).2 = 1 ∧
    countsOkB 0 (run id initState [sampleSelectA, sampleSelectB]).2 = true :=
  map_exists_iff_gps id [sampleSelectA, sampleSelectB]
    [sampleSelectA, sampleSelectB] [⟨1, 2⟩, ⟨3, 4⟩] ⟨3, 4⟩
    (by decide) (by decide) (by decide) (by decide)

/-- C5: on every exit from the Active state — unmount, or any selection
event while a map is live — the live map (which is always exactly the
freshly constructed map for the current GPS coordinate, never a mutated
one) is unbound from its target and released as the first action of the
transition, before any new map creation. -/
theorem active_exit_teardown (proj : ℚ × ℚ → ℚ × ℚ) (s : SysState)
    (e : PageEvent) (m : MapResource)
    (hre : Reachable proj s) (hm : s.mapInstance = some m)
    (he : e = PageEvent.unmount ∨ ∃ f : FileData, e = PageEvent.select (some f)) :
    s.mapInstance = Option.map (mkMap proj) s.page.gpsData ∧
    (step proj s e).2.head? = some (MapAction.teardown (unbind m)) ∧
    (step proj s e).2.tail.all isCreate = true := by
  have hInv := reachable_inv proj s hre
  unfold Inv at hInv
  by_cases hmt : s.mounted = true
  · simp only [hmt, if_true] at hInv
    cases hgd : s.page.gpsData with
    | none =>
      rw [hgd] at hInv
      simp only [Option.map_none'] at hInv
      rw [hInv] at hm
      simp at hm
    | some g =>
      rw [hgd] at hInv
      have hacts : (step proj s e).2 = [MapAction.teardown (unbind m)] ∨
          ∃ m2 : MapResource, (step proj s e).2
            = [MapAction.teardown (unbind m), MapAction.create m2] := by
        rcases he with rfl | ⟨f, rfl⟩
        · left
          simp [step, hmt, hm, cleanupActs]
        · cases hp : (handleFileChange s.page (some f)).gpsData with
          | some g2 =>
            right
            exact ⟨mkMap proj g2, by simp [step, hmt, hp, effectRun, hm, cleanupActs]⟩
          | none =>
            left
            simp [step, hmt, hp, hgd, effectRun, hm, cleanupActs]
      refine ⟨by rw [hInv], ?_, ?_⟩ <;>
        rcases hacts with h | ⟨m2, h⟩ <;> rw [h] <;> simp [isCreate]
  · have hmf : s.mounted = false := by simpa using hmt
    simp only [hmf, Bool.false_eq_true, if_false] at hInv
    rw [hInv] at hm
    simp at hm

theorem active_exit_teardown_witness :
    (run id initState [sampleSelectA]).1.mapInstance
      = Option.map (mkMap id)
          (run id initState [sampleSelectA]).1.page.gpsData ∧
    (step id (run id initState [sampleSelectA]).1 PageEvent.unmount).2.head?
      = some (MapAction.teardown (unbind (mkMap id ⟨1, 2⟩))) ∧
    (step id (run id initState [sampleSelectA]).1
        PageEvent.unmount).2.tail.all isCreate = true :=
  active_exit_teardown id (run id initState [sampleSelectA]).1
    PageEvent.unmount (mkMap id ⟨1, 2⟩)
    ⟨[sampleSelectA], rfl⟩ rfl (Or.inl rfl)

/-- C6: on a transition from Inactive (no GPS state, hence no live map)
to Active via a selection whose extraction settles GPS coordinate `g`,
the only lifecycle action is the creation of the new map, which is
centered on the projection of `(longitude, latitude)` at the fixed zoom
13, is bound to the display target, carries the public OSM base tile
layer, and carries a single-feature marker layer whose marker sits at
the same projected point with its fixed icon anchored at bottom-center
`(0.5, 1)`. -/
theorem inactive_to_active_map (proj : ℚ × ℚ → ℚ × ℚ) (s : SysState)
    (u : String) (allMetaData : Option Metadata)
    (gpsMetaData : Option GpsResult) (g : Gps)
    (hre : Reachable proj s) (hm : s.mounted = true)
    (hgps : s.page.gpsData = none)
    (hacc : acceptedGps gpsMetaData = some g) :
    (step proj s (PageEvent.select
        (some ⟨u, ExtractOutcome.success allMetaData gpsMetaData⟩))).1.mapInstance
      = some (mkMap proj g) ∧
    (step proj s (PageEvent.select
        (some ⟨u, ExtractOutcome.success allMetaData gpsMetaData⟩))).2
      = [MapAction.create (mkMap proj g)] ∧
    (mkMap proj g).center = proj (g.longitude, g.latitude) ∧
    (mkMap proj g).zoom = 13 ∧
    (mkMap proj g).target = some () ∧
    (mkMap proj g).layers
      = [Layer.tile "OSM",
         Layer.vector [{ point := proj (g.longitude, g.latitude),
                         anchor := (1/2, 1), iconSrc := "/marker-icon.png" }]] := by
  have hInv := reachable_inv proj s hre
  unfold Inv at hInv
  simp only [hm, if_true, hgps, Option.map_none'] at hInv
  have hp : (handleFileChange s.page
      (some ⟨u, ExtractOutcome.success allMetaData gpsMetaData⟩)).gpsData
        = some g := by
    simp [handleFileChange, hacc]
  refine ⟨?_, ?_, rfl, rfl, rfl, rfl⟩ <;>
    simp [step, hm, hp, effectRun, hInv, cleanupActs]

theorem inactive_to_active_map_witness :
    (step id initState (PageEvent.select
        (some ⟨"a", ExtractOutcome.success none
          (some ⟨some 3, some 4⟩)⟩))).1.mapInstance
      = some (mkMap id ⟨3, 4⟩) ∧
    (step id initState (PageEvent.select
        (some ⟨"a", ExtractOutcome.success none
          (some ⟨some 3, some 4⟩)⟩))).2
      = [MapAction.create (mkMap id ⟨3, 4⟩)] ∧
    (mkMap id ⟨3, 4⟩).center = id ((4 : ℚ), (3 : ℚ)) ∧
    (mkMap id ⟨3, 4⟩).zoom = 13 ∧
    (mkMap id ⟨3, 4⟩).target = some () ∧
    (mkMap id ⟨3, 4⟩).layers
      = [Layer.tile "OSM",
         Layer.vector [{ point := id ((4 : ℚ), (3 : ℚ)),
                         anchor := (1/2, 1), iconSrc := "/marker-icon.png" }]] :=
  inactive_to_active_map id initState "a" none (some ⟨some 3, some 4⟩) ⟨3, 4⟩
    ⟨[], rfl⟩ rfl rfl (by decide)

theorem parse_failure_handling_witness :
    (step id initState (PageEvent.select
        (some ⟨"u", ExtractOutcome.failure⟩))).1.page.metadata
      = errorMetadata ∧
    (step id initState (PageEvent.select
        (some ⟨"u", ExtractOutcome.failure⟩))).1.page.gpsData = none ∧
    step id
        (step id initState (PageEvent.select
          (some ⟨"u", ExtractOutcome.failure⟩))).1
        (PageEvent.select (some ⟨"u", ExtractOutcome.failure⟩))
      = ((step id initState (PageEvent.select
            (some ⟨"u", ExtractOutcome.failure⟩))).1, []) :=
  parse_failure_handling id initState "u" rfl

end ExifViewer
